import Mathlib

/-!
Verification of the authentication-flow contract of a Next.js front end
that authenticates against an OAuth2/PKCE provider.

The development shallowly embeds the two request-time middleware
implementations found in `src/middleware.ts` (one gated by the static
`config.matcher`, one by an explicit protected-path check) and the OAuth
callback route handler.  Network effects (the token-validation GET and the
refresh POST) are modelled by oracle arguments describing the provider
response, and each function additionally returns the list of provider
calls it issued, so that claims about which network requests happen are
provable.

JavaScript truthiness of the string-valued fields involved (absent,
`undefined` or the empty string are falsy) is modelled by `truthy` on
`Option String`.  JSON cookie payloads that parse to a non-object value
are outside the model (only the object case is reachable in the intended
flow).
-/

/-- JavaScript truthiness for an optional string value: absent or the
empty string is falsy, any other string is truthy. -/
def truthy : Option String → Bool
  | none => false
  | some s => s != ""

/-- The fields of the parsed `oauth_data` cookie that the middleware
reads: `oauthData?.access_token` and `oauthData?.refresh_token`. -/
structure OAuthData where
  access_token : Option String
  refresh_token : Option String
  deriving DecidableEq, Repr

/-- The provider response to a refresh POST, as read by the middleware:
the whole JSON object is stored back into the cookie and its
`expires_in` field feeds the cookie max-age. -/
structure TokenBundle where
  access_token : Option String
  refresh_token : Option String
  expires_in : Option Nat
  deriving DecidableEq, Repr

/-- The state of the `oauth_data` request cookie: absent, present but not
valid JSON, or parsed into its relevant fields. -/
inductive CookieState where
  | absent
  | unparsable
  | parsed (d : OAuthData)
  deriving DecidableEq, Repr

/-- Oracle for the outcome of the token-validation GET to
`/api/user/show`: success (2xx), an axios error carrying an optional
HTTP status (`none` models a network failure with no response), or a
non-axios exception. -/
inductive ValidateResult where
  | ok
  | axiosErr (status : Option Nat)
  | otherErr
  deriving DecidableEq, Repr

/-- Oracle for the outcome of the refresh POST to `/oauth/token`. -/
inductive RefreshResult where
  | ok (tokens : TokenBundle)
  | err
  deriving DecidableEq, Repr

/-- A provider network call issued by the middleware. -/
inductive Call where
  | validate
  | refresh
  deriving DecidableEq, Repr

/-- The observable outcome of one middleware invocation.
`undefinedReturn` records the code path of the second implementation
that falls off the end of the function and returns `undefined`. -/
inductive Outcome where
  | next
  | nextWithCookie (tokens : TokenBundle) (maxAge : Nat)
  | redirect (target : String)
  | undefinedReturn
  deriving DecidableEq, Repr

/-- `newTokens.expires_in || 3600`: the refreshed cookie max-age, with
JavaScript falsiness sending both an absent and a zero `expires_in` to
the 3600-second default. -/
def effExpiresIn (t : TokenBundle) : Nat :=
  match t.expires_in with
  | none => 3600
  | some n => if n = 0 then 3600 else n

/-- The matcher-config-gated middleware implementation
(`src/middleware.ts`, lines 43 to 134), as a function of the cookie
state and the two provider-response oracles.  It checks only the access
token before validating; a missing refresh token does not stop the
validation call.  Besides the outcome it returns the provider calls it
issued, in order. -/
def middlewareA (c : CookieState) (v : ValidateResult) (r : RefreshResult) :
    Outcome × List Call :=
  match c with
  | .absent => (.redirect "/auth/login", [])
  | .unparsable => (.redirect "/auth/login", [])
  | .parsed d =>
    if !truthy d.access_token then
      (.redirect "/auth/login", [])
    else
      match v with
      | .ok => (.next, [.validate])
      | .axiosErr s =>
        if s = some 401 then
          match r with
          | .ok t => (.nextWithCookie t (effExpiresIn t), [.validate, .refresh])
          | .err => (.redirect "/auth/login", [.validate, .refresh])
        else if s = some 403 then
          (.redirect "/auth/forbidden", [.validate])
        else
          (.redirect "/auth/login", [.validate])
      | .otherErr => (.redirect "/auth/login", [.validate])

/-- `s.startsWith p` on the character-list view of JavaScript strings:
true when `p` is an initial segment of `s`. -/
def startsWithL : List Char → List Char → Bool
  | _, [] => true
  | [], _ :: _ => false
  | c :: cs, d :: ds => c == d && startsWithL cs ds

/-- The `protectedPaths` array of the second middleware implementation. -/
def protectedPaths : List (List Char) := ["/dashboard".toList]

/-- The explicit protected-path gate of the second implementation:
`protectedPaths.some(p => pathname.startsWith(p))`. -/
def isProtectedB (path : List Char) : Bool :=
  protectedPaths.any fun p => startsWithL path p

/-- The explicit-prefix-check middleware implementation
(`src/middleware.ts`, lines 143 to 237).  It redirects when either token
is missing, and on an axios validation error whose status is not 401 it
falls off the end of the function, returning `undefined`. -/
def middlewareB (path : List Char) (c : CookieState) (v : ValidateResult)
    (r : RefreshResult) : Outcome × List Call :=
  if !isProtectedB path then
    (.next, [])
  else
    match c with
    | .absent => (.redirect "/auth/login", [])
    | .unparsable => (.redirect "/auth/login", [])
    | .parsed d =>
      if !truthy d.access_token || !truthy d.refresh_token then
        (.redirect "/auth/login", [])
      else
        match v with
        | .ok => (.next, [.validate])
        | .axiosErr s =>
          if s = some 401 then
            match r with
            | .ok t => (.nextWithCookie t (effExpiresIn t), [.validate, .refresh])
            | .err => (.redirect "/auth/login", [.validate, .refresh])
          else
            (.undefinedReturn, [.validate])
        | .otherErr => (.redirect "/auth/login", [.validate])

/-- The route pattern matched by `config.matcher`, modelled on the
character-list view: `/dashboard/:path*` accepts `/dashboard` itself and
every path continuing with a slash after it. -/
def matcherDashboard (path : List Char) : Bool :=
  decide (path = "/dashboard".toList) || startsWithL path "/dashboard/".toList

/-- The first implementation as deployed: the framework runs
`middlewareA` only on paths accepted by `config.matcher` and passes all
other requests through untouched. -/
def gatedA (path : List Char) (c : CookieState) (v : ValidateResult)
    (r : RefreshResult) : Outcome × List Call :=
  if matcherDashboard path then middlewareA c v r else (.next, [])

theorem startsWithL_self (s : List Char) : startsWithL s s = true := by
  induction s with
  | nil => rfl
  | cons c cs ih => simp [startsWithL, ih]

theorem startsWithL_of_append (s p q : List Char)
    (h : startsWithL s (p ++ q) = true) : startsWithL s p = true := by
  induction p generalizing s with
  | nil =>
    cases s <;> rfl
  | cons a as ih =>
    cases s with
    | nil => simp [startsWithL] at h
    | cons b bs =>
      simp only [List.cons_append, startsWithL, Bool.and_eq_true] at h ⊢
      exact ⟨h.1, ih bs h.2⟩

theorem isProtectedB_of_matcher (path : List Char)
    (h : matcherDashboard path = true) : isProtectedB path = true := by
  simp only [matcherDashboard, Bool.or_eq_true, decide_eq_true_eq] at h
  simp only [isProtectedB, protectedPaths, List.any_cons, List.any_nil,
    Bool.or_false]
  rcases h with h | h
  · exact h ▸ startsWithL_self _
  · have : ("/dashboard/".toList : List Char) = "/dashboard".toList ++ ['/'] := by decide
    exact startsWithL_of_append _ _ _ (this ▸ h)

theorem matcherDashboard_eq_false (path : List Char)
    (h : startsWithL path "/dashboard".toList = false) :
    matcherDashboard path = false := by
  by_contra hne
  have hm : matcherDashboard path = true := by
    cases hmt : matcherDashboard path
    · exact absurd hmt hne
    · rfl
  have := isProtectedB_of_matcher path hm
  simp only [isProtectedB, protectedPaths, List.any_cons, List.any_nil,
    Bool.or_false] at this
  rw [this] at h
  exact absurd h (by simp)

/-- Oracle for the token-exchange POST issued by the callback handler.
In the `ok` case, `data` stands for the provider JSON value through its
serialization: the handler stores `JSON.stringify(data)`, modelled as
the string itself.  An axios error carries the fields the handler copies
into its payload; a generic `Error` carries message, name and optional
stack; any other thrown value is carried through `String(err)`. -/
inductive ExchangeResult where
  | ok (data : String)
  | axiosError (message : String) (code : Option String) (status : Option Nat)
      (details : Option String)
  | genericError (message : String) (errName : String) (stack : Option String)
  | thrownNonError (text : String)
  deriving DecidableEq, Repr

/-- The `OAuthErrorPayload` interface of the callback route: `error` is
always present, the other fields are filled per error class.  A JSON
`null` assigned to a field and an unassigned field are both modelled as
`none`. -/
structure OAuthErrorPayload where
  error : String
  message : Option String := none
  code : Option String := none
  status : Option Nat := none
  details : Option String := none
  stack : Option String := none
  errName : Option String := none
  deriving DecidableEq, Repr

/-- One `response.cookies.set` performed by a handler, with the max-age
option it passed (`none` when the set call passed no max-age). -/
structure SetCookie where
  cookieName : String
  value : String
  maxAge : Option Nat
  deriving DecidableEq, Repr

/-- The observable response of the callback route handler: HTTP status,
redirect location if any, JSON error body if any, and the cookie
operations performed on the response. -/
structure CallbackResponse where
  status : Nat
  location : Option String
  body : Option OAuthErrorPayload
  setCookies : List SetCookie
  deletedCookies : List String
  deriving DecidableEq, Repr

/-- The body of the 400 response for a missing code or verifier. -/
def invalidStatePayload : OAuthErrorPayload :=
  { error := "Invalid state: missing code or verifier" }

/-- The payload built for a caught `Error` instance: message and name
always, the stack only outside production and only when truthy. -/
def genericErrorPayload (message errName : String) (isProd : Bool)
    (stack : Option String) : OAuthErrorPayload :=
  { error := "OAuth Error", message := some message, errName := some errName,
    stack := if !isProd && truthy stack then stack else none }

/-- The callback route handler `GET` (the third segment of
`src/unnamed/part_000`, lines 52 to 109).  `code` is the query
parameter, `verifier` the `pkce_verifier` cookie, `tokenUrl` the
`NEXT_PUBLIC_OAUTH_TOKEN_URL` environment variable and `appUrl` the
`NEXT_PUBLIC_APP_URL` one; `ex` is the token-exchange oracle, consulted
only when the POST is reached.  `tuStack` is the engine-produced stack
of the `Token URL not defined` error.  `NextResponse.redirect` uses its
default 307 status. -/
def callbackGET (code verifier tokenUrl : Option String) (appUrl : String)
    (ex : ExchangeResult) (isProd : Bool) (tuStack : Option String) :
    CallbackResponse :=
  if !truthy code || !truthy verifier then
    ⟨400, none, some invalidStatePayload, [], []⟩
  else if !truthy tokenUrl then
    ⟨500, none,
      some (genericErrorPayload "Token URL not defined" "Error" isProd tuStack),
      [], []⟩
  else
    match ex with
    | .ok data =>
      ⟨307, some (appUrl ++ "/dashboard"), none,
        [⟨"oauth_data", data, none⟩], ["pkce_verifier"]⟩
    | .axiosError message code2 status details =>
      ⟨500, none,
        some { error := "OAuth Error", message := some message, code := code2,
               status := status, details := details }, [], []⟩
    | .genericError message errName stack =>
      ⟨500, none, some (genericErrorPayload message errName isProd stack),
        [], []⟩
    | .thrownNonError text =>
      ⟨500, none, some { error := "OAuth Error", details := some text }, [], []⟩

/-- C1: the two middleware implementations are NOT behaviorally
equivalent on protected paths.  On a 403 from validation the
matcher-gated implementation redirects to the forbidden page while the
explicit-prefix-check implementation falls off the end of the function
and returns undefined. -/
theorem middleware_impls_differ_on_403 :
    gatedA "/dashboard".toList
        (.parsed ⟨some "a", some "r"⟩) (.axiosErr (some 403)) .err
      ≠ middlewareB "/dashboard".toList
        (.parsed ⟨some "a", some "r"⟩) (.axiosErr (some 403)) .err := by
  decide

/-- C1 (amended): the two implementations agree on every protected path
whenever the cookie carries a refresh token along with any access token
it has and the validation outcome is a success, a 401, or a non-axios
error; they diverge exactly on non-401 axios error statuses (403
included) and on a cookie with an access token but no refresh token. -/
theorem middleware_impls_agree (path : List Char) (c : CookieState)
    (v : ValidateResult) (r : RefreshResult)
    (hpath : matcherDashboard path = true)
    (hc : ∀ d, c = .parsed d → truthy d.access_token = true →
      truthy d.refresh_token = true)
    (hv : ∀ s, v = .axiosErr s → s = some 401) :
    gatedA path c v r = middlewareB path c v r := by
  have hB := isProtectedB_of_matcher path hpath
  unfold gatedA middlewareB
  rw [hpath, hB]
  cases c with
  | absent => rfl
  | unparsable => rfl
  | parsed d =>
    cases hacc : truthy d.access_token with
    | false => simp [middlewareA, hacc]
    | true =>
      have href := hc d rfl hacc
      cases v with
      | ok => simp [middlewareA, hacc, href]
      | otherErr => simp [middlewareA, hacc, href]
      | axiosErr s =>
        have hs := hv s rfl
        subst hs
        cases r <;> simp [middlewareA, hacc, href]

/-- C1 witness: at a concrete protected path, full cookie and a 401
followed by a successful refresh, the two implementations coincide. -/
theorem middleware_impls_agree_witness :
    gatedA "/dashboard".toList
        (.parsed ⟨some "a", some "r"⟩) (.axiosErr (some 401))
        (.ok ⟨some "a2", some "r2", some 7200⟩)
      = middlewareB "/dashboard".toList
        (.parsed ⟨some "a", some "r"⟩) (.axiosErr (some 401))
        (.ok ⟨some "a2", some "r2", some 7200⟩) :=
  middleware_impls_agree _ _ _ _ (by decide)
    (fun d hd => by cases hd; intro _; decide)
    (fun s hs => by cases hs; rfl)

/-- C2: on a protected path with a parsed cookie holding a truthy access
token, a 403 from the validation endpoint makes the matcher-gated
middleware redirect to the forbidden page. -/
theorem protected_403_redirects_forbidden (path : List Char) (d : OAuthData)
    (r : RefreshResult) (hpath : matcherDashboard path = true)
    (hacc : truthy d.access_token = true) :
    (gatedA path (.parsed d) (.axiosErr (some 403)) r).1
      = Outcome.redirect "/auth/forbidden" := by
  unfold gatedA
  rw [hpath]
  simp [middlewareA, hacc]

/-- C2 witness at a concrete request. -/
theorem protected_403_redirects_forbidden_witness :
    (gatedA "/dashboard/settings".toList
        (.parsed ⟨some "a", some "r"⟩) (.axiosErr (some 403)) .err).1
      = Outcome.redirect "/auth/forbidden" :=
  protected_403_redirects_forbidden _ _ _ (by decide) (by decide)

/-- C3: on a protected path with a truthy access token, any validation
outcome other than success, 401 and 403 makes the matcher-gated
middleware redirect to the login page. -/
theorem validation_other_failure_redirects_login (path : List Char)
    (d : OAuthData) (v : ValidateResult) (r : RefreshResult)
    (hpath : matcherDashboard path = true)
    (hacc : truthy d.access_token = true)
    (hok : v ≠ .ok)
    (h401 : v ≠ .axiosErr (some 401))
    (h403 : v ≠ .axiosErr (some 403)) :
    (gatedA path (.parsed d) v r).1 = Outcome.redirect "/auth/login" := by
  unfold gatedA
  rw [hpath]
  cases v with
  | ok => exact absurd rfl hok
  | otherErr => simp [middlewareA, hacc]
  | axiosErr s =>
    have h1 : s ≠ some 401 := fun h => h401 (by rw [h])
    have h3 : s ≠ some 403 := fun h => h403 (by rw [h])
    simp [middlewareA, hacc, h1, h3]

/-- C3 witness: a 500 from validation redirects to login. -/
theorem validation_other_failure_redirects_login_witness :
    (gatedA "/dashboard".toList
        (.parsed ⟨some "a", some "r"⟩) (.axiosErr (some 500)) .err).1
      = Outcome.redirect "/auth/login" :=
  validation_other_failure_redirects_login _ _ _ _ (by decide) (by decide)
    (by decide) (by decide) (by decide)

/-- C4 counterexample: in the matcher-gated implementation a cookie with
an access token but no refresh token does NOT redirect to login; the
validation call to the provider is still issued and the request
proceeds. -/
theorem missing_refresh_token_still_validates :
    gatedA "/dashboard".toList (.parsed ⟨some "a", none⟩) .ok .err
      = (Outcome.next, [Call.validate]) := by
  decide

/-- C4 (amended): the explicit-prefix-check implementation redirects to
login without any provider call when either token is missing, while the
matcher-gated implementation does so only when the access token is
missing (a missing refresh token alone does not prevent the validation
call). -/
theorem missing_token_redirects_login (path : List Char) (d : OAuthData)
    (v : ValidateResult) (r : RefreshResult)
    (hpath : matcherDashboard path = true) :
    ((truthy d.access_token = false ∨ truthy d.refresh_token = false) →
        middlewareB path (.parsed d) v r = (Outcome.redirect "/auth/login", []))
    ∧ (truthy d.access_token = false →
        gatedA path (.parsed d) v r = (Outcome.redirect "/auth/login", [])) := by
  have hB := isProtectedB_of_matcher path hpath
  constructor
  · intro h
    unfold middlewareB
    rw [hB]
    rcases h with h | h <;> simp [h]
  · intro h
    unfold gatedA
    rw [hpath]
    simp [middlewareA, h]

/-- C4 witness: an empty access token redirects both implementations to
login with no provider call. -/
theorem missing_token_redirects_login_witness :
    middlewareB "/dashboard".toList (.parsed ⟨some "", some "r"⟩) .ok .err
        = (Outcome.redirect "/auth/login", [])
    ∧ gatedA "/dashboard".toList (.parsed ⟨some "", some "r"⟩) .ok .err
        = (Outcome.redirect "/auth/login", []) :=
  ⟨(missing_token_redirects_login "/dashboard".toList ⟨some "", some "r"⟩
      .ok .err (by decide)).1 (Or.inl (by decide)),
   (missing_token_redirects_login "/dashboard".toList ⟨some "", some "r"⟩
      .ok .err (by decide)).2 (by decide)⟩

/-- C5: with a truthy code, verifier and token URL, a successful token
exchange makes the callback respond with a redirect to the dashboard
under the app URL, set the oauth cookie to exactly the serialized
provider response, and delete the verifier cookie. -/
theorem callback_success_behavior (code verifier tokenUrl : Option String)
    (appUrl data : String) (isProd : Bool) (tuStack : Option String)
    (hc : truthy code = true) (hv : truthy verifier = true)
    (ht : truthy tokenUrl = true) :
    callbackGET code verifier tokenUrl appUrl (.ok data) isProd tuStack
      = ⟨307, some (appUrl ++ "/dashboard"), none,
          [⟨"oauth_data", data, none⟩], ["pkce_verifier"]⟩ := by
  simp [callbackGET, hc, hv, ht]

/-- C5 witness at a concrete request. -/
theorem callback_success_behavior_witness :
    callbackGET (some "authcode") (some "ver") (some "http://p/oauth/token")
        "http://app" (.ok "bundle") false none
      = ⟨307, some ("http://app" ++ "/dashboard"), none,
          [⟨"oauth_data", "bundle", none⟩], ["pkce_verifier"]⟩ :=
  callback_success_behavior _ _ _ _ _ _ _ (by decide) (by decide) (by decide)

/-- C6 counterexample: a request whose code parameter is present but
empty (and whose verifier cookie is present) still receives the 400
invalid-state response, so the 400 is not equivalent to one of the two
values being absent. -/
theorem callback_400_despite_present_code :
    callbackGET (some "") (some "ver") (some "u") "app" (.ok "d") false none
        = ⟨400, none, some invalidStatePayload, [], []⟩
    ∧ (some "" ≠ (none : Option String))
    ∧ (some "ver" ≠ (none : Option String)) := by
  refine ⟨by decide, by decide, by decide⟩

/-- C6 (amended): the callback returns the 400 invalid-state response
exactly when the code parameter or the verifier cookie is absent or
empty (JavaScript-falsy). -/
theorem callback_400_iff (code verifier tokenUrl : Option String)
    (appUrl : String) (ex : ExchangeResult) (isProd : Bool)
    (tuStack : Option String) :
    callbackGET code verifier tokenUrl appUrl ex isProd tuStack
        = ⟨400, none, some invalidStatePayload, [], []⟩
      ↔ (truthy code = false ∨ truthy verifier = false) := by
  constructor
  · intro h
    by_contra hcon
    push_neg at hcon
    obtain ⟨hc, hv⟩ := hcon
    rw [Bool.ne_false_iff] at hc hv
    unfold callbackGET at h
    rw [hc, hv] at h
    simp only [Bool.not_true, Bool.or_self, Bool.false_eq_true, if_false] at h
    by_cases ht : truthy tokenUrl = true
    · rw [ht] at h
      simp only [Bool.not_true, Bool.false_eq_true, if_false] at h
      cases ex <;> simp_all
    · rw [Bool.not_eq_true] at ht
      rw [ht] at h
      simp at h
  · intro h
    unfold callbackGET
    rcases h with h | h <;> simp [h]

/-- C7 counterexample: the oauth cookie write performed by the callback
handler on a successful exchange passes no max-age at all, so not every
oauth cookie write sets max-age from the provider expires_in value. -/
theorem callback_oauth_write_has_no_max_age :
    (callbackGET (some "c") (some "v") (some "u") "app" (.ok "tokens")
        false none).setCookies.map SetCookie.maxAge = [none] := by
  decide

/-- C7 (amended): the middleware refresh write sets max-age to the
provider expires_in value with a 3600-second default when that field is
absent or zero, while every oauth cookie write of the callback handler
passes no max-age. -/
theorem oauth_cookie_max_age_policy (path : List Char) (d : OAuthData)
    (t : TokenBundle) (code verifier tokenUrl : Option String)
    (appUrl : String) (ex : ExchangeResult) (isProd : Bool)
    (tuStack : Option String)
    (hpath : matcherDashboard path = true)
    (hacc : truthy d.access_token = true) :
    (gatedA path (.parsed d) (.axiosErr (some 401)) (.ok t)).1
        = Outcome.nextWithCookie t (effExpiresIn t)
    ∧ (t.expires_in = none → effExpiresIn t = 3600)
    ∧ (∀ n, t.expires_in = some n → n ≠ 0 → effExpiresIn t = n)
    ∧ (∀ sc ∈ (callbackGET code verifier tokenUrl appUrl ex isProd
          tuStack).setCookies, sc.maxAge = none) := by
  refine ⟨?_, ?_, ?_, ?_⟩
  · unfold gatedA
    rw [hpath]
    simp [middlewareA, hacc]
  · intro h
    simp [effExpiresIn, h]
  · intro n h hn
    simp [effExpiresIn, h, hn]
  · intro sc hsc
    unfold callbackGET at hsc
    split at hsc
    · simp at hsc
    · split at hsc
      · simp at hsc
      · cases ex with
        | ok data =>
          simp only [List.mem_singleton] at hsc
          rw [hsc]
        | axiosError m c2 s det => simp at hsc
        | genericError m en st => simp at hsc
        | thrownNonError tx => simp at hsc

/-- C7 witness at concrete inputs, with an absent expires_in defaulting
to 3600 on the middleware side. -/
theorem oauth_cookie_max_age_policy_witness :
    (gatedA "/dashboard".toList (.parsed ⟨some "a", some "r"⟩)
        (.axiosErr (some 401)) (.ok ⟨some "a2", some "r2", none⟩)).1
        = Outcome.nextWithCookie ⟨some "a2", some "r2", none⟩ 3600
    ∧ (∀ sc ∈ (callbackGET (some "c") (some "v") (some "u") "app"
          (.ok "tokens") false none).setCookies, sc.maxAge = none) := by
  have h := oauth_cookie_max_age_policy "/dashboard".toList
    ⟨some "a", some "r"⟩ ⟨some "a2", some "r2", none⟩
    (some "c") (some "v") (some "u") "app" (.ok "tokens") false none
    (by decide) (by decide)
  refine ⟨?_, h.2.2.2⟩
  rw [h.1, h.2.1 rfl]

/-- C8: in one middleware invocation the refresh POST is issued at most
once and only on a 401 from validation, the validation GET is issued at
most once, and a successful refresh returns the pass-through outcome
carrying the rewritten cookie with the trace showing validation was not
re-invoked. -/
theorem middlewareA_trace (c : CookieState) (v : ValidateResult)
    (r : RefreshResult) :
    (middlewareA c v r).2 = []
    ∨ (middlewareA c v r).2 = [Call.validate]
    ∨ ((middlewareA c v r).2 = [Call.validate, Call.refresh]
        ∧ v = .axiosErr (some 401)) := by
  rcases c with _ | _ | d
  · exact Or.inl rfl
  · exact Or.inl rfl
  · by_cases hacc : truthy d.access_token = true
    · rcases v with _ | s | _
      · right; left; simp [middlewareA, hacc]
      · by_cases hs : s = some 401
        · subst hs
          right; right
          rcases r with t | _
          · exact ⟨by simp [middlewareA, hacc], rfl⟩
          · exact ⟨by simp [middlewareA, hacc], rfl⟩
        · by_cases h3 : s = some 403
          · subst h3
            right; left; simp [middlewareA, hacc]
          · right; left; simp [middlewareA, hacc, hs, h3]
      · right; left; simp [middlewareA, hacc]
    · left
      have hf : truthy d.access_token = false := by
        cases h2 : truthy d.access_token
        · rfl
        · exact absurd h2 hacc
      simp [middlewareA, hf]

theorem single_refresh (c : CookieState) (v : ValidateResult)
    (r : RefreshResult) :
    ((middlewareA c v r).2.count Call.refresh ≤ 1)
    ∧ ((middlewareA c v r).2.count Call.validate ≤ 1)
    ∧ (Call.refresh ∈ (middlewareA c v r).2 → v = .axiosErr (some 401))
    ∧ (∀ d t, c = .parsed d → truthy d.access_token = true →
        v = .axiosErr (some 401) → r = .ok t →
        middlewareA c v r
          = (.nextWithCookie t (effExpiresIn t), [.validate, .refresh])) := by
  refine ⟨?_, ?_, ?_, ?_⟩
  · rcases middlewareA_trace c v r with h | h | ⟨h, _⟩ <;> rw [h] <;> decide
  · rcases middlewareA_trace c v r with h | h | ⟨h, _⟩ <;> rw [h] <;> decide
  · intro hm
    rcases middlewareA_trace c v r with h | h | ⟨_, h401⟩
    · rw [h] at hm
      exact absurd hm (by decide)
    · rw [h] at hm
      exact absurd hm (by decide)
    · exact h401
  · intro d t hd hacc hv hr
    subst hd; subst hv; subst hr
    simp [middlewareA, hacc]

/-- C8 witness: a parsed cookie, a 401 and a successful refresh yield
exactly the trace of one validation call followed by one refresh. -/
theorem single_refresh_witness :
    middlewareA (.parsed ⟨some "a", some "r"⟩) (.axiosErr (some 401))
        (.ok ⟨some "a2", some "r2", some 100⟩)
      = (.nextWithCookie ⟨some "a2", some "r2", some 100⟩ 100,
         [Call.validate, Call.refresh]) := by
  have h := (single_refresh (.parsed ⟨some "a", some "r"⟩)
      (.axiosErr (some 401)) (.ok ⟨some "a2", some "r2", some 100⟩)).2.2.2
      ⟨some "a", some "r"⟩ ⟨some "a2", some "r2", some 100⟩ rfl (by decide)
      rfl rfl
  rw [h]
  rfl

/-- C9: a request whose path does not start with the protected
`/dashboard` string produces the pass-through outcome with no provider
call in both implementations, for every cookie state and every provider
oracle, so no cookie-derived state influences the result. -/
theorem non_protected_bypasses (path : List Char) (c : CookieState)
    (v : ValidateResult) (r : RefreshResult)
    (h : startsWithL path "/dashboard".toList = false) :
    gatedA path c v r = (Outcome.next, [])
    ∧ middlewareB path c v r = (Outcome.next, []) := by
  have hm := matcherDashboard_eq_false path h
  have hB : isProtectedB path = false := by
    simp only [isProtectedB, protectedPaths, List.any_cons, List.any_nil,
      Bool.or_false]
    exact h
  constructor
  · unfold gatedA
    simp [hm]
  · unfold middlewareB
    simp [hB]

/-- C9 witness at the site root path. -/
theorem non_protected_bypasses_witness :
    gatedA "/".toList .absent .ok .err = (Outcome.next, [])
    ∧ middlewareB "/".toList .absent .ok .err = (Outcome.next, []) :=
  non_protected_bypasses "/".toList .absent .ok .err (by decide)

/-- C10: whenever the callback handler does not answer with the 307
success redirect (missing code or verifier, missing token URL, provider
error or generic exception), its response performs no cookie set and no
cookie delete, leaving the verifier cookie intact and the oauth cookie
unwritten. -/
theorem callback_failure_no_cookie_ops (code verifier tokenUrl : Option String)
    (appUrl : String) (ex : ExchangeResult) (isProd : Bool)
    (tuStack : Option String)
    (h : (callbackGET code verifier tokenUrl appUrl ex isProd
      tuStack).status ≠ 307) :
    (callbackGET code verifier tokenUrl appUrl ex isProd tuStack).setCookies
        = []
    ∧ (callbackGET code verifier tokenUrl appUrl ex isProd
        tuStack).deletedCookies = [] := by
  by_cases h1 : (!truthy code || !truthy verifier) = true
  · simp [callbackGET, h1]
  · by_cases h2 : (!truthy tokenUrl) = true
    · simp [callbackGET, h1, h2]
    · cases ex with
      | ok data =>
        exfalso
        apply h
        simp [callbackGET, h1, h2]
      | axiosError m c2 s det => simp [callbackGET, h1, h2]
      | genericError m en st => simp [callbackGET, h1, h2]
      | thrownNonError tx => simp [callbackGET, h1, h2]

/-- C10 witness: a request with no code parameter answers 400 and
performs no cookie operation. -/
theorem callback_failure_no_cookie_ops_witness :
    (callbackGET none (some "v") (some "u") "app" (.ok "d") false
        none).setCookies = []
    ∧ (callbackGET none (some "v") (some "u") "app" (.ok "d") false
        none).deletedCookies = [] :=
  callback_failure_no_cookie_ops none (some "v") (some "u") "app" (.ok "d")
    false none (by decide)
